import Mathlib

/-!
Shallow embedding of the opencode lifecycle-management subsystem of
`zerx-lab/axon-ai` (`src-tauri/src/opencode/{types,platform,downloader,service}.rs`),
with theorems checking the natural-language specification against the code.
-/

namespace Axon

/-! ## Data model (types.rs) -/

/-- `OpencodeError` from `types.rs`: the error taxonomy of the subsystem. -/
inductive OpencodeError where
  | DownloadError (msg : String)
  | ExtractError (msg : String)
  | BinaryNotFound
  | ServiceStartError (msg : String)
  | ConnectionError (msg : String)
  | IoError (msg : String)
  | RequestError (msg : String)
  | ConfigError (msg : String)
  deriving DecidableEq, Repr

/-- `ServiceStatus` from `types.rs`.  The `Downloading` progress is an `f32`
percentage in the source; it is modelled as a rational. -/
inductive ServiceStatus where
  | Uninitialized
  | Downloading (progress : ℚ)
  | Ready
  | Starting
  | Running (port : ℕ)
  | Stopped
  | Error (message : String)
  deriving DecidableEq, Repr

/-- Whether an `OpencodeError` is the code's configuration-error variant
(`ConfigError`, displayed as "Invalid configuration: …"). -/
def OpencodeError.isConfigurationError : OpencodeError → Bool
  | .ConfigError _ => true
  | _ => false

/-! ## Version cache (downloader.rs lines 16-60) -/

/-- `VERSION_CACHE_TTL_SECS = 12 * 60 * 60` from `downloader.rs`. -/
def VERSION_CACHE_TTL_SECS : ℕ := 12 * 60 * 60

/-- `VersionCache` from `downloader.rs`: persisted `{version, timestamp}`
record, timestamps in seconds since the Unix epoch (`u64`). -/
structure VersionCache where
  version : String
  timestamp : ℕ
  deriving DecidableEq, Repr

/-- `VersionCache::is_expired`.  The source computes
`now.saturating_sub(self.timestamp) > VERSION_CACHE_TTL_SECS`; `Nat`
subtraction is exactly `u64::saturating_sub` for in-range values. -/
def VersionCache.is_expired (c : VersionCache) (now : ℕ) : Bool :=
  VERSION_CACHE_TTL_SECS < now - c.timestamp

/-! ## Platform resolver (platform.rs) -/

/-- `get_platform_identifier` from `platform.rs`: maps the compile-time
`(std::env::consts::OS, std::env::consts::ARCH)` pair to an artifact
identifier; `None` for every unsupported combination. -/
def get_platform_identifier (os arch : String) : Option String :=
  match os, arch with
  | "windows", "x86_64" => some "windows-x64"
  | "windows", "aarch64" => some "windows-arm64"
  | "macos", "x86_64" => some "darwin-x64"
  | "macos", "aarch64" => some "darwin-arm64"
  | "linux", "x86_64" => some "linux-x64"
  | "linux", "aarch64" => some "linux-arm64"
  | _, _ => none

/-- `get_archive_extension` from `platform.rs`. -/
def get_archive_extension : String := "zip"

/-- `build_download_url` from `platform.rs`. -/
def build_download_url (os arch version : String) : Option String :=
  (get_platform_identifier os arch).map fun platform =>
    "https://github.com/anomalyco/opencode/releases/download/" ++ version ++
      "/opencode-" ++ platform ++ "." ++ get_archive_extension

/-- The six supported `(OS, ARCH)` pairs of `get_platform_identifier`. -/
def supportedPlatforms : List (String × String) :=
  [("windows", "x86_64"), ("windows", "aarch64"),
   ("macos", "x86_64"), ("macos", "aarch64"),
   ("linux", "x86_64"), ("linux", "aarch64")]

/-! ## Release locator (downloader.rs `fetch_latest_version`) -/

/-- Outcome of the single release-index HTTP request in
`fetch_latest_version`: either `reqwest::send` fails outright, or a response
arrives with a status code and (when the body parses as a `GithubRelease`)
a `tag_name`. -/
inductive NetResult where
  | sendError
  | httpStatus (code : ℕ) (tagName : Option String)
  deriving DecidableEq, Repr

/-- `reqwest::StatusCode::is_success`: 2xx. -/
def statusIsSuccess (code : ℕ) : Bool := 200 ≤ code && code < 300

/-- Result of one `fetch_latest_version` run, instrumented with whether the
network was contacted and what (if anything) was written to the cache. -/
structure FetchOutcome where
  result : Except OpencodeError String
  networkCalled : Bool
  cacheWritten : Option String
  deriving Repr

/-- `OpencodeDownloader::get_fallback_version`: prefer the persisted cache
even when expired, then the installed binary's self-reported version, else
a hard `DownloadError`. -/
def get_fallback_version (cache : Option VersionCache) (installed : Option String) :
    Except OpencodeError String :=
  match cache with
  | some c => .ok c.version
  | none =>
    match installed with
    | some v => .ok v
    | none => .error (.DownloadError "无法获取版本信息：GitHub API 限流且无本地缓存")

/-- `OpencodeDownloader::fetch_latest_version`, as a function of the persisted
cache, the current clock, the network's behaviour and the installed binary's
reported version.  Mirrors `downloader.rs` lines 356-399. -/
def fetch_latest_version (cache : Option VersionCache) (now : ℕ)
    (net : NetResult) (installed : Option String) : FetchOutcome :=
  match cache with
  | some c =>
    if ¬ c.is_expired now then
      { result := .ok c.version, networkCalled := false, cacheWritten := none }
    else
      fetchFromNetwork cache net installed
  | none => fetchFromNetwork cache net installed
where
  /-- The network phase of `fetch_latest_version` (after the fresh-cache
  shortcut has not fired). -/
  fetchFromNetwork (cache : Option VersionCache) (net : NetResult)
      (installed : Option String) : FetchOutcome :=
    match net with
    | .sendError =>
      { result := get_fallback_version cache installed,
        networkCalled := true, cacheWritten := none }
    | .httpStatus code tagName =>
      if ¬ statusIsSuccess code then
        if code = 403 ∨ code = 429 then
          { result := get_fallback_version cache installed,
            networkCalled := true, cacheWritten := none }
        else
          { result := .error (.DownloadError ("GitHub API returned status: " ++ toString code)),
            networkCalled := true, cacheWritten := none }
      else
        match tagName with
        | some tag =>
          { result := .ok tag, networkCalled := true, cacheWritten := some tag }
        | none =>
          { result := .error (.DownloadError "failed to parse release info"),
            networkCalled := true, cacheWritten := none }

/-! ## HTTP client construction (downloader.rs `OpencodeDownloader::new`) -/

/-- Configuration of a `reqwest::Client` as far as the builder chain in
`OpencodeDownloader::new` determines it: the builder sets a `user_agent`
and nothing else, so the client keeps reqwest's default of no total
request timeout (`timeoutMs = none` means no bounded timeout). -/
structure HttpClientConfig where
  userAgent : Option String
  timeoutMs : Option ℕ
  deriving DecidableEq, Repr

/-- The client built by `OpencodeDownloader::new` (downloader.rs lines
256-265): `reqwest::Client::builder().user_agent(...).build()` — no
`.timeout(...)` call anywhere in the chain. -/
def downloaderClient : HttpClientConfig :=
  { userAgent := some "axon-desktop/0.1.0 (https://github.com/zero/axon_desktop)",
    timeoutMs := none }

/-! ## Download URL resolution inside `download` (downloader.rs lines 421-434) -/

/-- The version-then-URL resolution prefix of `OpencodeDownloader::download`:
`build_download_url(&version).ok_or_else(|| DownloadError("Unsupported platform"))`.
`version` is the already-resolved tag (the `Some` branch of the argument, or
the result of `fetch_latest_version`). -/
def download_resolve_url (os arch version : String) : Except OpencodeError String :=
  match build_download_url os arch version with
  | some url => .ok url
  | none => .error (.DownloadError "Unsupported platform")

/-! ## Status correction (service.rs `get_status` / `detect_running_port`) -/

/-- The "not actively running" states tested by `get_status`'s `matches!`. -/
def isNotActivelyRunning : ServiceStatus → Bool
  | .Uninitialized => true
  | .Ready => true
  | .Stopped => true
  | _ => false

/-- `OpencodeService::detect_running_port` (service.rs lines 93-109): a
recorded `Running` port first, then a nonzero configured port, else `none`
(dynamic port with no record — refuse to guess). -/
def detect_running_port (status : ServiceStatus) (configPort : ℕ) : Option ℕ :=
  match status with
  | .Running port => some port
  | _ => if configPort ≠ 0 then some configPort else none

/-- `OpencodeService::get_status` (service.rs lines 68-89), as a function of
the recorded status, the configured port and whether `is_process_running`
reports the child alive.  Returns the (possibly corrected) status, which the
source also writes back. -/
def get_status (status : ServiceStatus) (configPort : ℕ) (alive : Bool) : ServiceStatus :=
  if isNotActivelyRunning status && alive then
    match detect_running_port status configPort with
    | some port => .Running port
    | none => status
  else
    status

/-! ## Download progress events (downloader.rs `download_file`) -/

/-- `DownloadProgress` from `types.rs`; the `f32` percentage is modelled as
a rational. -/
structure DownloadProgress where
  downloaded : ℕ
  total : Option ℕ
  percentage : ℚ
  deriving DecidableEq, Repr

/-- The progress value built in `download_file`'s read loop for a cumulative
byte count `downloaded` and the response's `content_length`:
`percentage = total.map(|t| downloaded / t * 100).unwrap_or(0)`. -/
def mkProgress (totalSize : Option ℕ) (downloaded : ℕ) : DownloadProgress :=
  { downloaded := downloaded,
    total := totalSize,
    percentage :=
      match totalSize with
      | some t => (downloaded : ℚ) / (t : ℚ) * 100
      | none => 0 }

/-- The sequence of progress events `download_file` sends on the channel,
given the response's `content_length` and the sizes of the chunks the body
stream yields (downloader.rs lines 490-512): one event per chunk, carrying
the running total of bytes written so far.  `acc` is the `downloaded`
accumulator entering the loop (0 at the top-level call). -/
def downloadEventsFrom (totalSize : Option ℕ) (acc : ℕ) : List ℕ → List DownloadProgress
  | [] => []
  | chunk :: rest =>
    mkProgress totalSize (acc + chunk) :: downloadEventsFrom totalSize (acc + chunk) rest

/-- The events of a whole `download_file` run (accumulator starts at 0). -/
def downloadEvents (totalSize : Option ℕ) (chunks : List ℕ) : List DownloadProgress :=
  downloadEventsFrom totalSize 0 chunks

/-! ## Semantic versions (the `semver` crate, as used by `get_version_info`)

`service.rs` delegates parsing and ordering to `semver::Version`; the
definitions below model that crate's grammar (SemVer 2.0.0:
`major.minor.patch[-pre][+build]`, numeric core components without leading
zeros, bounded by `u64::MAX`) and its `Ord` implementation.  Note that
`service.rs:603` compares with `>`, i.e. `Ord` on `semver::Version`, which
after major/minor/patch and prerelease also tiebreaks on build metadata
(the crate's `cmp_precedence` would ignore it, but that is not what the
code calls), so build metadata is retained here and ordered. -/

/-- A prerelease identifier: numeric identifiers compare numerically and
before every alphanumeric identifier. -/
inductive PreId where
  | num (n : ℕ)
  | alpha (s : String)
  deriving DecidableEq, Repr

/-- `semver::Version`.  `pre = none` is a release version; `build` is the
raw build-metadata text after `+` (`[]` when absent, matching the crate's
empty `BuildMetadata`), which participates in `Ord`. -/
structure SemVer where
  major : ℕ
  minor : ℕ
  patch : ℕ
  pre : Option (List PreId)
  build : List Char
  deriving DecidableEq, Repr

/-- Characters allowed in prerelease/build identifiers: ASCII alphanumerics
and hyphen. -/
def isIdentChar (c : Char) : Bool := c.isAlphanum || c == '-'

/-- Split a character list at every occurrence of `sep` (Rust `str::split`):
the empty list yields one empty part, and separators at the ends yield empty
parts. -/
def splitOnChar (sep : Char) : List Char → List (List Char)
  | [] => [[]]
  | c :: rest =>
    let parts := splitOnChar sep rest
    if c = sep then [] :: parts
    else
      match parts with
      | [] => [[c]]
      | p :: ps => (c :: p) :: ps

/-- Rejoin parts with the separator (inverse of `splitOnChar` on the tail
after the first separator). -/
def joinWith (sep : Char) : List (List Char) → List Char
  | [] => []
  | [p] => p
  | p :: q :: rest => p ++ sep :: joinWith sep (q :: rest)

/-- Decimal value of a digit list. -/
def digitsToNat (acc : ℕ) : List Char → ℕ
  | [] => acc
  | c :: rest => digitsToNat (acc * 10 + (c.toNat - 48)) rest

/-- A numeric core component: nonempty digits, no leading zero. -/
def isNumericIdent : List Char → Bool
  | [] => false
  | c :: rest => (c :: rest).all Char.isDigit && (rest.isEmpty || !(c == '0'))

/-- `u64::MAX`: the crate stores major/minor/patch as `u64` and fails to
parse components above this bound. -/
def U64_MAX : ℕ := 18446744073709551615

/-- Parse a `major`/`minor`/`patch` component (the crate errors on values
beyond `u64::MAX`). -/
def parseNumericIdent (l : List Char) : Option ℕ :=
  if isNumericIdent l then
    let n := digitsToNat 0 l
    if n ≤ U64_MAX then some n else none
  else none

/-- Parse one prerelease identifier (numeric identifiers must not have
leading zeros; otherwise alphanumeric over `isIdentChar`). -/
def parsePreId (l : List Char) : Option PreId :=
  if l.isEmpty || !(l.all isIdentChar) then none
  else if l.all Char.isDigit then
    match l with
    | '0' :: _ :: _ => none
    | _ => some (.num (digitsToNat 0 l))
  else some (.alpha ⟨l⟩)

/-- Parse a dot-separated prerelease section. -/
def parsePre (l : List Char) : Option (List PreId) :=
  (splitOnChar '.' l).mapM parsePreId

/-- A build-metadata identifier: nonempty over `isIdentChar` (leading zeros
are allowed in build metadata). -/
def isValidBuildIdent (l : List Char) : Bool :=
  !l.isEmpty && l.all isIdentChar

/-- Validate a build-metadata section. -/
def isValidBuild (l : List Char) : Bool :=
  (splitOnChar '.' l).all isValidBuildIdent

/-- Split off (and validate) build metadata at the first `+`, keeping its
text; an absent `+` yields the crate's empty `BuildMetadata`. -/
def splitBuild (l : List Char) : Option (List Char × List Char) :=
  match splitOnChar '+' l with
  | [corePre] => some (corePre, [])
  | [corePre, build] => if isValidBuild build then some (corePre, build) else none
  | _ => none

/-- Split the version core from the prerelease section at the first `-`
(later hyphens belong to the prerelease section). -/
def splitPreSection (l : List Char) : List Char × Option (List Char) :=
  match splitOnChar '-' l with
  | [] => (l, none)
  | [core] => (core, none)
  | core :: rest => (core, some (joinWith '-' rest))

/-- Parse `major.minor.patch`. -/
def parseCore (l : List Char) : Option (ℕ × ℕ × ℕ) :=
  match splitOnChar '.' l with
  | [a, b, c] => do
    let ma ← parseNumericIdent a
    let mb ← parseNumericIdent b
    let mc ← parseNumericIdent c
    pure (ma, mb, mc)
  | _ => none

/-- `semver::Version::parse`. -/
def semverParse (s : String) : Option SemVer := do
  let (corePre, build) ← splitBuild s.data
  let (core, preSection) := splitPreSection corePre
  let (ma, mb, mc) ← parseCore core
  match preSection with
  | none => pure { major := ma, minor := mb, patch := mc, pre := none, build := build }
  | some p => do
    let ids ← parsePre p
    pure { major := ma, minor := mb, patch := mc, pre := some ids, build := build }

/-- Three-way comparison on naturals. -/
def natCmp (a b : ℕ) : Ordering :=
  if a < b then .lt else if b < a then .gt else .eq

/-- Codepoint-wise lexicographic comparison on char lists — Rust's `str`
ordering for the ASCII identifiers compared here. -/
def charListCmp : List Char → List Char → Ordering
  | [], [] => .eq
  | [], _ :: _ => .lt
  | _ :: _, [] => .gt
  | a :: xs, b :: ys =>
    if a.toNat < b.toNat then .lt
    else if b.toNat < a.toNat then .gt
    else charListCmp xs ys

/-- Prerelease identifier comparison: numeric before alphanumeric, numeric
vs numeric numerically (the crate's length-then-string compare, equivalent
since prerelease numerics have no leading zeros), alphanumeric vs
alphanumeric in ASCII lexicographic order. -/
def preIdCmp : PreId → PreId → Ordering
  | .num n, .num m => natCmp n m
  | .num _, .alpha _ => .lt
  | .alpha _, .num _ => .gt
  | .alpha s, .alpha t => charListCmp s.data t.data

/-- Comparison of prerelease identifier lists: identifier-wise, a strict
prefix comparing before its extensions. -/
def preIdsCmp : List PreId → List PreId → Ordering
  | [], [] => .eq
  | [], _ :: _ => .lt
  | _ :: _, [] => .gt
  | a :: xs, b :: ys =>
    match preIdCmp a b with
    | .eq => preIdsCmp xs ys
    | o => o

/-- `Ord` on `semver::Prerelease`: the empty prerelease (a release version)
compares greater than every nonempty one. -/
def preCmpOpt : Option (List PreId) → Option (List PreId) → Ordering
  | none, none => .eq
  | none, some _ => .gt
  | some _, none => .lt
  | some x, some y => preIdsCmp x y

/-- One build-metadata identifier compared per `Ord` on
`semver::BuildMetadata`: all-digit identifiers (leading zeros allowed here)
order as `0 < 00 < 1 < 01 < 001 < 2 < …` — by zero-trimmed length, then
zero-trimmed text, then raw length — digits before non-digits, and
non-digit identifiers in ASCII lexicographic order.  An empty identifier is
vacuously all-digit, which is how the crate's empty metadata sorts below
everything nonempty. -/
def buildIdCmp (x y : List Char) : Ordering :=
  match x.all Char.isDigit, y.all Char.isDigit with
  | true, true =>
    let xv := x.dropWhile (fun c => c == '0')
    let yv := y.dropWhile (fun c => c == '0')
    ((natCmp xv.length yv.length).then (charListCmp xv yv)).then
      (natCmp x.length y.length)
  | true, false => .lt
  | false, true => .gt
  | false, false => charListCmp x y

/-- Comparison of build-metadata identifier lists. -/
def buildIdsCmp : List (List Char) → List (List Char) → Ordering
  | [], [] => .eq
  | [], _ :: _ => .lt
  | _ :: _, [] => .gt
  | x :: xs, y :: ys =>
    match buildIdCmp x y with
    | .eq => buildIdsCmp xs ys
    | o => o

/-- `Ord` on `semver::BuildMetadata`: split the raw text at dots and compare
identifier-wise (the empty text splits into one empty identifier). -/
def buildCmp (a b : List Char) : Ordering :=
  buildIdsCmp (splitOnChar '.' a) (splitOnChar '.' b)

/-- `Ord::cmp` on `semver::Version`: major, minor, patch, prerelease, and
finally the build-metadata tiebreak.  This — not `cmp_precedence` — is what
`service.rs:603`'s `>` invokes. -/
def semverCmp (a b : SemVer) : Ordering :=
  ((((natCmp a.major b.major).then (natCmp a.minor b.minor)).then
      (natCmp a.patch b.patch)).then
    (preCmpOpt a.pre b.pre)).then
    (buildCmp a.build b.build)

/-- `<` on `semver::Version`. -/
def semverLt (a b : SemVer) : Bool := semverCmp a b == .lt

/-! ## Version comparison (service.rs `get_version_info`, lines 580-620) -/

/-- Rust's `str::trim_start_matches('v')`: drop every leading `v`. -/
def stripLeadingV (s : String) : String :=
  ⟨s.data.dropWhile (fun c => c == 'v')⟩

/-- The `update_available` computation of `OpencodeService::get_version_info`
(service.rs lines 596-613): with both an installed and a latest tag, strip
leading `v`s, parse both as semver and compare `latest > installed`;
if either fails to parse, fall back to string inequality of the stripped
tags; with either tag missing, `false`. -/
def update_available (installed latest : Option String) : Bool :=
  match installed, latest with
  | some inst, some lat =>
    let instClean := stripLeadingV inst
    let latClean := stripLeadingV lat
    match semverParse instClean, semverParse latClean with
    | some instVer, some latVer => semverLt instVer latVer
    | _, _ => instClean != latClean
  | _, _ => false

/-! ## JSON documents (serde_json::Value) and the config patch (service.rs
`update_config_port`, lines 330-386)

Objects are modelled as association lists; `jinsert` replaces the value of
an existing key in place and appends a missing key, which agrees with
`serde_json::Map::insert` on every lookup. -/

/-- `serde_json::Value`. -/
inductive Json where
  | null
  | bool (b : Bool)
  | num (q : ℚ)
  | str (s : String)
  | arr (elems : List Json)
  | obj (entries : List (String × Json))
  deriving Repr

/-- Object lookup (`Value::get` on an object's entries). -/
def jlookup : List (String × Json) → String → Option Json
  | [], _ => none
  | (k, v) :: rest, key => if k = key then some v else jlookup rest key

/-- Object insert (`Map::insert`): replace an existing binding, else append. -/
def jinsert : List (String × Json) → String → Json → List (String × Json)
  | [], key, v => [(key, v)]
  | (k, w) :: rest, key, v =>
    if k = key then (k, v) :: rest else (k, w) :: jinsert rest key v

/-- The fresh server block `json!({"port": port, "hostname": "127.0.0.1"})`
written when the document has no `server` key. -/
def serverObjFor (port : ℕ) : Json :=
  .obj [("port", .num port), ("hostname", .str "127.0.0.1")]

/-- The server-port step of `update_config_port` (service.rs lines 347-357):
if `server` exists and is an object, insert `port` into it; if `server`
exists but is not an object, do nothing; if `server` is absent, assign a
fresh `{port, hostname}` block.  `none` models the `serde_json` index-assign
panic when the whole document is neither an object nor `null`. -/
def patchServerPort (config : Json) (port : ℕ) : Option Json :=
  match config with
  | .obj entries =>
    match jlookup entries "server" with
    | some (.obj serverEntries) =>
      some (.obj (jinsert entries "server" (.obj (jinsert serverEntries "port" (.num port)))))
    | some _ => some (.obj entries)
    | none => some (.obj (jinsert entries "server" (serverObjFor port)))
  | .null => some (.obj [("server", serverObjFor port)])
  | _ => none

/-- The plugin-injection step of `update_config_port` (service.rs lines
359-374): when the document has no `plugin` key and the bridge plugin file
exists on disk, assign `plugin = [pluginUrl]`; otherwise leave the document
alone. -/
def addPluginIfMissing (config : Json) (pluginExists : Bool) (pluginUrl : String) :
    Option Json :=
  match config with
  | .obj entries =>
    match jlookup entries "plugin" with
    | some _ => some (.obj entries)
    | none =>
      if pluginExists then
        some (.obj (jinsert entries "plugin" (.arr [.str pluginUrl])))
      else
        some (.obj entries)
  | .null =>
    if pluginExists then some (.obj [("plugin", .arr [.str pluginUrl])]) else some .null
  | other => if pluginExists then none else some other

/-- `OpencodeService::update_config_port` on a successfully read and parsed
document (read or parse failures return early without writing anything):
patch the server port, then maybe inject the plugin entry, then serialize
and rewrite the file.  `pluginExists` is whether the bridge plugin's
`index.js` exists under the app data dir; `pluginUrl` its `file://` URL. -/
def update_config_port (config : Json) (pluginExists : Bool) (pluginUrl : String)
    (port : ℕ) : Option Json := do
  let patched ← patchServerPort config port
  addPluginIfMissing patched pluginExists pluginUrl

/-! ## Local start (service.rs `start_local_service`, lines 210-328)

The environment record carries the outcome of each effectful step the
function performs, in source order; the result is the sequence of
`update_status` calls together with the function's return value.  The
warn-and-continue steps (cache/config dir creation, config file write)
cannot change control flow and carry no state the claims mention. -/

/-- Outcomes of the effectful steps of one `start_local_service` run. -/
structure StartEnv where
  /-- `find_available_port()` (consulted only when the configured port is 0):
  the bound ephemeral port, or the bind/addr error message. -/
  portBind : Except String ℕ
  /-- `downloader.get_binary_path()`. -/
  binaryPath : Option String
  /-- `get_app_data_dir()`. -/
  appDataDir : Option String
  /-- `cmd.spawn()`: `Ok` or the OS error message. -/
  spawnResult : Except String Unit
  /-- `is_process_running()` after the 500 ms settle delay. -/
  aliveAfterSettle : Bool

/-- `OpencodeService::start_local_service`, from a `Ready` recorded status:
returns the list of statuses passed to `update_status`, in order, and the
function's `Result`. -/
def start_local_service (port : ℕ) (env : StartEnv) :
    List ServiceStatus × Except OpencodeError Unit :=
  match (if port = 0 then env.portBind else .ok port) with
  | .error e => ([], .error (.ServiceStartError e))
  | .ok actualPort =>
    match env.binaryPath with
    | none => ([], .error .BinaryNotFound)
    | some _ =>
      -- `update_status(ServiceStatus::Starting)` happens here, before the
      -- app-data-dir lookup and the spawn.
      match env.appDataDir with
      | none => ([.Starting], .error (.ConfigError "未初始化应用数据目录"))
      | some _ =>
        match env.spawnResult with
        | .error e => ([.Starting], .error (.ServiceStartError e))
        | .ok _ =>
          if env.aliveAfterSettle then
            ([.Starting, .Running actualPort], .ok ())
          else
            ([.Starting, .Error "服务启动失败"],
              .error (.ServiceStartError "进程立即退出"))

/-- The status on record when `start_local_service` returns: the last
`update_status` argument, or the initial status when none was issued. -/
def finalStatus (initial : ServiceStatus) (trace : List ServiceStatus) : ServiceStatus :=
  (trace.getLast?).getD initial

/-- The network outcomes that `fetch_latest_version` routes to the fallback
chain: a failed `send`, or an HTTP 403/429 status (rate limiting). -/
def netRateLimitedOrFailed : NetResult → Bool
  | .sendError => true
  | .httpStatus code _ => code == 403 || code == 429

/-- `Result::is_ok`. -/
def exceptIsOk : Except ε α → Bool
  | .ok _ => true
  | .error _ => false

/-!
# Theorems

One theorem per claim of the specification, preceded by helper lemmas.
-/

/-- Lookup after an insert: the inserted key reads back the new value, every
other key is untouched. -/
theorem jlookup_jinsert (entries : List (String × Json)) (key k : String) (v : Json) :
    jlookup (jinsert entries key v) k = if k = key then some v else jlookup entries k := by
  induction entries with
  | nil =>
    by_cases h : key = k
    · subst h
      simp [jinsert, jlookup]
    · have h2 : ¬ k = key := fun he => h he.symm
      simp [jinsert, jlookup, h, h2]
  | cons kv rest ih =>
    obtain ⟨k0, v0⟩ := kv
    by_cases h0 : k0 = key
    · subst h0
      by_cases h : k0 = k
      · subst h
        simp [jinsert, jlookup]
      · have h2 : ¬ k = k0 := fun he => h he.symm
        simp [jinsert, jlookup, h, h2]
    · by_cases h : k0 = k
      · subst h
        simp [jinsert, jlookup, h0]
      · simp [jinsert, jlookup, h0, h, ih]

/-- C10: a `VersionCache` whose stored timestamp is at or after the current
clock time is never expired — `now.saturating_sub(timestamp)` is 0, which is
not greater than the TTL, so the future-dated tag is served as fresh no
matter how far ahead the timestamp lies. -/
theorem C10_future_dated_cache_is_fresh (c : VersionCache) (now : ℕ)
    (h : now ≤ c.timestamp) : c.is_expired now = false := by
  simp [VersionCache.is_expired, Nat.sub_eq_zero_of_le h, VERSION_CACHE_TTL_SECS]

/-- C10 witness: a cache stamped at second 1000000 queried at second 5 (the
clock stepped backwards) reads as fresh. -/
theorem C10_witness :
    (5 : ℕ) ≤ 1000000 ∧ (VersionCache.mk "v1.2.3" 1000000).is_expired 5 = false :=
  ⟨by decide, C10_future_dated_cache_is_fresh ⟨"v1.2.3", 1000000⟩ 5 (by decide)⟩

/-- C5: with a persisted cache whose age is within the TTL,
`fetch_latest_version` returns exactly the cached tag, contacts the network
zero times, and rewrites nothing. -/
theorem C5_fresh_cache_short_circuits (c : VersionCache) (now : ℕ)
    (net : NetResult) (installed : Option String)
    (h : c.is_expired now = false) :
    fetch_latest_version (some c) now net installed =
      { result := .ok c.version, networkCalled := false, cacheWritten := none } := by
  simp [fetch_latest_version, h]

/-- C5 witness: a tag cached at second 1000 and read at second 2000 (well
inside the 12-hour TTL) is returned with no network call, whatever the
network would have answered. -/
theorem C5_witness :
    (VersionCache.mk "v0.9.1" 1000).is_expired 2000 = false ∧
    fetch_latest_version (some ⟨"v0.9.1", 1000⟩) 2000 (.httpStatus 200 (some "v9.9.9")) none =
      { result := .ok "v0.9.1", networkCalled := false, cacheWritten := none } :=
  ⟨by decide,
   C5_fresh_cache_short_circuits ⟨"v0.9.1", 1000⟩ 2000
     (.httpStatus 200 (some "v9.9.9")) none (by decide)⟩

/-- C3: whenever the release-index request fails at the network level or
returns HTTP 403/429, `fetch_latest_version` returns the persisted cached
tag (expired or not) when a cache exists, else the installed binary's
self-reported version when obtainable, and errors only when neither
fallback is available. -/
theorem C3_rate_limit_fallback_chain (cache : Option VersionCache) (now : ℕ)
    (net : NetResult) (installed : Option String)
    (h : netRateLimitedOrFailed net = true) :
    (fetch_latest_version cache now net installed).result =
      match cache with
      | some c => .ok c.version
      | none =>
        match installed with
        | some v => .ok v
        | none => .error (.DownloadError "无法获取版本信息：GitHub API 限流且无本地缓存") := by
  have hnet : ∀ c : Option VersionCache,
      (fetch_latest_version.fetchFromNetwork c net installed).result =
        get_fallback_version c installed := by
    intro c
    cases net with
    | sendError => rfl
    | httpStatus code tagName =>
      simp only [netRateLimitedOrFailed, Bool.or_eq_true, beq_iff_eq] at h
      have hcode : code = 403 ∨ code = 429 := h
      have hfail : statusIsSuccess code = false := by
        rcases hcode with h4 | h4 <;> subst h4 <;> decide
      simp [fetch_latest_version.fetchFromNetwork, hfail, hcode]
  cases cache with
  | none =>
    rw [show fetch_latest_version none now net installed =
        fetch_latest_version.fetchFromNetwork none net installed from rfl, hnet]
    rfl
  | some c =>
    by_cases hexp : c.is_expired now = true
    · have : fetch_latest_version (some c) now net installed =
          fetch_latest_version.fetchFromNetwork (some c) net installed := by
        simp [fetch_latest_version, hexp]
      rw [this, hnet]
      rfl
    · have hexp2 : c.is_expired now = false := by
        cases hb : c.is_expired now
        · rfl
        · exact absurd hb hexp
      simp [fetch_latest_version, hexp2]

/-- C3 witness: a simulated HTTP 429 with no cache but an installed binary
reporting `v0.5.0` yields `v0.5.0` without raising an error. -/
theorem C3_witness :
    netRateLimitedOrFailed (.httpStatus 429 none) = true ∧
    (fetch_latest_version none 0 (.httpStatus 429 none) (some "v0.5.0")).result =
      .ok "v0.5.0" :=
  ⟨by decide,
   C3_rate_limit_fallback_chain none 0 (.httpStatus 429 none) (some "v0.5.0") (by decide)⟩

/-- C2 counterexample: the claim says every Release Locator request carries
a fixed bounded timeout, but the `reqwest` client built by
`OpencodeDownloader::new` configures only a User-Agent and keeps the default
of no request timeout, so no request carries one. -/
theorem C2_counterexample : downloaderClient.timeoutMs.isSome = false := rfl

/-- C2 amended: the Release Locator's HTTP client is configured with a fixed
User-Agent and no request timeout at all, so `fetch_latest_version` has no
code-level bound on how long a request may block; its no-throw-on-rate-limit
behaviour comes solely from the fallback chain. -/
theorem C2_amended_client_has_no_timeout :
    downloaderClient.timeoutMs = none ∧
    downloaderClient.userAgent =
      some "axon-desktop/0.1.0 (https://github.com/zero/axon_desktop)" :=
  ⟨rfl, rfl⟩

/-- C4 counterexample: on an unsupported platform (here FreeBSD/x86_64) the
resolver does return nothing and `download` does fail fast with a
descriptive message — but the error is `DownloadError`, the variant used
for download/network failures, not the code's configuration-error variant
`ConfigError`, so "a configuration error, never a network error" fails. -/
theorem C4_counterexample :
    get_platform_identifier "freebsd" "x86_64" = none ∧
    download_resolve_url "freebsd" "x86_64" "v1.0.0" =
      .error (.DownloadError "Unsupported platform") ∧
    (OpencodeError.DownloadError "Unsupported platform").isConfigurationError = false := by
  exact ⟨rfl, rfl, rfl⟩

/-- C4 amended: for every (OS, architecture) pair outside the six supported
ones, the Platform Resolver returns nothing and `download` fails fast —
before any artifact request — with the fixed descriptive error
`DownloadError "Unsupported platform"`, which is not classified as a
configuration error. -/
theorem C4_unsupported_platform_fails_fast (os arch version : String)
    (h : (os, arch) ∉ supportedPlatforms) :
    get_platform_identifier os arch = none ∧
    download_resolve_url os arch version =
      .error (.DownloadError "Unsupported platform") ∧
    (OpencodeError.DownloadError "Unsupported platform").isConfigurationError = false := by
  have hid : get_platform_identifier os arch = none := by
    unfold get_platform_identifier
    split <;> simp_all [supportedPlatforms]
  refine ⟨hid, ?_, rfl⟩
  simp [download_resolve_url, build_download_url, hid]

/-- C4 witness: FreeBSD on x86_64 is unsupported; the resolver yields
nothing and `download` fails with the descriptive `DownloadError`. -/
theorem C4_witness :
    ("freebsd", "x86_64") ∉ supportedPlatforms ∧
    get_platform_identifier "freebsd" "x86_64" = none ∧
    download_resolve_url "freebsd" "x86_64" "v1.0.0" =
      .error (.DownloadError "Unsupported platform") :=
  ⟨by decide,
   (C4_unsupported_platform_fails_fast "freebsd" "x86_64" "v1.0.0" (by decide)).1,
   (C4_unsupported_platform_fails_fast "freebsd" "x86_64" "v1.0.0" (by decide)).2.1⟩

/-- C6: with both an installed and a latest tag present, when both
v-stripped tags parse as semantic versions, `update_available` is true
exactly when the latest version is strictly greater in semver precedence;
when either fails to parse, it degrades to string inequality of the
v-stripped tags. -/
theorem C6_update_available_semver (inst lat : String) :
    (∀ instVer latVer,
      semverParse (stripLeadingV inst) = some instVer →
      semverParse (stripLeadingV lat) = some latVer →
      (update_available (some inst) (some lat) = true ↔ semverLt instVer latVer = true)) ∧
    ((semverParse (stripLeadingV inst) = none ∨ semverParse (stripLeadingV lat) = none) →
      (update_available (some inst) (some lat) = true ↔
        stripLeadingV inst ≠ stripLeadingV lat)) := by
  constructor
  · intro instVer latVer hi hl
    simp [update_available, hi, hl]
  · intro hnone
    rcases hnone with hn | hn
    · simp [update_available, hn, bne_iff_ne]
    · cases hi : semverParse (stripLeadingV inst) <;>
        simp [update_available, hi, hn, bne_iff_ne]

/-- C6 witness: `v1.2.3` vs `v1.10.0` — both parse; semver says an update is
available (string comparison would have ordered them the other way). -/
theorem C6_witness :
    update_available (some "v1.2.3") (some "v1.10.0") = true ∧
    update_available (some "1.0.0") (some "1.0.0+x") = true :=
  ⟨((C6_update_available_semver "v1.2.3" "v1.10.0").1
      ⟨1, 2, 3, none, []⟩ ⟨1, 10, 0, none, []⟩ (by decide) (by decide)).mpr (by decide),
   ((C6_update_available_semver "1.0.0" "1.0.0+x").1
      ⟨1, 0, 0, none, []⟩ ⟨1, 0, 0, none, ['x']⟩ (by decide) (by decide)).mpr (by decide)⟩

/-- C8: when the recorded status is Uninitialized, Ready or Stopped but the
child process is alive, `get_status` corrects to `Running{port}` exactly when
a port is known with confidence — here a nonzero configured port, the
recorded status not being `Running` in this branch — and with the
auto-assign sentinel 0 it returns the recorded status unchanged rather than
guessing. -/
theorem C8_opportunistic_status_correction (status : ServiceStatus) (configPort : ℕ)
    (h : isNotActivelyRunning status = true) :
    (configPort ≠ 0 → get_status status configPort true = .Running configPort) ∧
    (configPort = 0 → get_status status configPort true = status) := by
  constructor
  · intro hp
    cases status <;> simp_all [get_status, detect_running_port, isNotActivelyRunning]
  · intro hp
    subst hp
    cases status <;> simp_all [get_status, detect_running_port, isNotActivelyRunning]

/-- C8 witness: a `Stopped` record with a live process and fixed port 4096
is corrected to `Running 4096`; a `Ready` record with a live process and the
auto-assign port 0 is returned unchanged. -/
theorem C8_witness :
    get_status .Stopped 4096 true = .Running 4096 ∧
    get_status .Ready 0 true = .Ready :=
  ⟨(C8_opportunistic_status_correction .Stopped 4096 (by decide)).1 (by decide),
   (C8_opportunistic_status_correction .Ready 0 (by decide)).2 rfl⟩

theorem downloadEventsFrom_length (t : Option ℕ) :
    ∀ (chunks : List ℕ) (acc : ℕ),
      (downloadEventsFrom t acc chunks).length = chunks.length := by
  intro chunks
  induction chunks with
  | nil => intro acc; rfl
  | cons c rest ih => intro acc; simp [downloadEventsFrom, ih]

theorem downloadEventsFrom_get? (t : Option ℕ) :
    ∀ (chunks : List ℕ) (acc i : ℕ), i < chunks.length →
      (downloadEventsFrom t acc chunks).get? i =
        some (mkProgress t (acc + (chunks.take (i + 1)).sum)) := by
  intro chunks
  induction chunks with
  | nil =>
    intro acc i h
    simp at h
  | cons c rest ih =>
    intro acc i h
    cases i with
    | zero => simp [downloadEventsFrom]
    | succ j =>
      have hj : j < rest.length := by simpa using h
      simp only [downloadEventsFrom, List.get?]
      rw [ih (acc + c) j hj]
      simp [Nat.add_assoc]

theorem downloadEventsFrom_head_downloaded (t : Option ℕ) (chunks : List ℕ) (acc : ℕ) :
    ∀ p ∈ (downloadEventsFrom t acc chunks).head?, acc ≤ p.downloaded := by
  cases chunks with
  | nil => simp [downloadEventsFrom]
  | cons c rest => simp [downloadEventsFrom, mkProgress]

theorem downloadEventsFrom_chain (t : Option ℕ) :
    ∀ (chunks : List ℕ) (acc : ℕ),
      List.Chain' (fun p q => p.downloaded ≤ q.downloaded)
        (downloadEventsFrom t acc chunks) := by
  intro chunks
  induction chunks with
  | nil => intro acc; simp [downloadEventsFrom]
  | cons c rest ih =>
    intro acc
    rw [downloadEventsFrom, List.chain'_cons']
    refine ⟨?_, ih (acc + c)⟩
    intro q hq
    exact downloadEventsFrom_head_downloaded t rest (acc + c) q hq

/-- C9: `download_file` emits exactly one progress event per received chunk;
the i-th event carries the cumulative byte count of the first i+1 chunks and
the server-reported total (absent when the server sent no content length);
its percentage is `downloaded/total·100` and 0 when the total is unknown;
and the byte counts are monotonically non-decreasing across the event
sequence. -/
theorem C9_progress_events (totalSize : Option ℕ) (chunks : List ℕ) :
    (downloadEvents totalSize chunks).length = chunks.length ∧
    (∀ i, i < chunks.length →
      (downloadEvents totalSize chunks).get? i =
        some { downloaded := (chunks.take (i + 1)).sum,
               total := totalSize,
               percentage :=
                 match totalSize with
                 | some tot => ((chunks.take (i + 1)).sum : ℚ) / (tot : ℚ) * 100
                 | none => 0 }) ∧
    List.Chain' (fun p q => p.downloaded ≤ q.downloaded)
      (downloadEvents totalSize chunks) := by
  refine ⟨downloadEventsFrom_length totalSize chunks 0, ?_,
    downloadEventsFrom_chain totalSize chunks 0⟩
  intro i h
  have hg := downloadEventsFrom_get? totalSize chunks 0 i h
  rw [downloadEvents, hg]
  cases totalSize <;> simp [mkProgress]

/-- C9 witness: a body streamed as chunks of 10 and 20 bytes against a
100-byte content length yields two events, the second carrying 30 cumulative
bytes and percentage 30/100·100, with byte counts non-decreasing. -/
theorem C9_witness :
    (downloadEvents (some 100) [10, 20]).length = [10, 20].length ∧
    (downloadEvents (some 100) [10, 20]).get? 1 =
      some { downloaded := 30, total := some 100, percentage := 30 } ∧
    List.Chain' (fun p q => p.downloaded ≤ q.downloaded)
      (downloadEvents (some 100) [10, 20]) :=
  ⟨(C9_progress_events (some 100) [10, 20]).1,
   by
    have h := (C9_progress_events (some 100) [10, 20]).2.1 1 (by decide)
    norm_num at h
    exact h,
   (C9_progress_events (some 100) [10, 20]).2.2⟩

/-- C1 counterexample: when `cmd.spawn()` fails (e.g. the binary was removed
between the existence check and the spawn), `start_local_service` has already
set the status to `Starting` and returns the spawn error without any further
`update_status` call — the status is left at `Starting` when `start`
returns, contradicting "in no outcome is the status left at Starting". -/
theorem C1_counterexample :
    (start_local_service 3000
        ⟨.ok 0, some "/bin/opencode", some "/data", .error "No such file", true⟩).1 =
      [.Starting] ∧
    finalStatus .Ready
      (start_local_service 3000
        ⟨.ok 0, some "/bin/opencode", some "/data", .error "No such file", true⟩).1 =
      .Starting ∧
    exceptIsOk
      (start_local_service 3000
        ⟨.ok 0, some "/bin/opencode", some "/data", .error "No such file", true⟩).2 =
      false :=
  ⟨rfl, rfl, rfl⟩

/-- C1 amended: from Ready, `start` in Local mode ends at `Running{port}` on
success and at `Error{message}` when the post-spawn liveness check fails;
but on pre-`Starting` failures (port bind, missing binary) no status update
is issued and the status stays `Ready`, and the status IS left at `Starting`
exactly when the port and binary steps succeed and then either the
app-data-dir lookup or the spawn itself fails. -/
theorem C1_start_status_outcomes (port : ℕ) (env : StartEnv) :
    (exceptIsOk (start_local_service port env).2 = true →
      ∃ p, (start_local_service port env).1 = [.Starting, .Running p]) ∧
    (finalStatus .Ready (start_local_service port env).1 = .Starting ↔
      (exceptIsOk (if port = 0 then env.portBind else .ok port) = true ∧
        env.binaryPath.isSome = true ∧
        (env.appDataDir = none ∨ exceptIsOk env.spawnResult = false))) ∧
    ((exceptIsOk (if port = 0 then env.portBind else .ok port) = false ∨
        env.binaryPath = none) →
      (start_local_service port env).1 = [] ∧
        finalStatus .Ready (start_local_service port env).1 = .Ready ∧
        exceptIsOk (start_local_service port env).2 = false) ∧
    ((exceptIsOk (if port = 0 then env.portBind else .ok port) = true ∧
        env.binaryPath.isSome = true ∧ env.appDataDir.isSome = true ∧
        exceptIsOk env.spawnResult = true ∧ env.aliveAfterSettle = false) →
      (start_local_service port env).1 = [.Starting, .Error "服务启动失败"] ∧
        exceptIsOk (start_local_service port env).2 = false) ∧
    (exceptIsOk (start_local_service port env).2 = false →
      (finalStatus .Ready (start_local_service port env).1 = .Ready ∨
       finalStatus .Ready (start_local_service port env).1 = .Starting ∨
       finalStatus .Ready (start_local_service port env).1 = .Error "服务启动失败")) := by
  obtain ⟨pb, bp, ad, sp, alive⟩ := env
  by_cases hp : port = 0 <;>
    cases pb <;> cases bp <;> cases ad <;> cases sp <;> cases alive <;>
      simp [start_local_service, finalStatus, exceptIsOk, hp]

/-- C1 witness: with port 3000, binary present but no app data dir, the
status is left at `Starting`; with auto port bound to 45001 and the process
dead after the settle delay, the trace ends at `Error`; with a port-bind
failure, no status update is issued and the status stays `Ready`. -/
theorem C1_witness :
    finalStatus .Ready
      (start_local_service 3000 ⟨.ok 0, some "/bin/opencode", none, .ok (), true⟩).1 =
      .Starting ∧
    (start_local_service 0
        ⟨.ok 45001, some "/bin/opencode", some "/data", .ok (), false⟩).1 =
      [.Starting, .Error "服务启动失败"] ∧
    finalStatus .Ready
      (start_local_service 0
        ⟨.error "无法绑定端口: in use", some "/bin/opencode", some "/data", .ok (), true⟩).1 =
      .Ready :=
  ⟨((C1_start_status_outcomes 3000
        ⟨.ok 0, some "/bin/opencode", none, .ok (), true⟩).2.1).mpr
      ⟨rfl, rfl, Or.inl rfl⟩,
   ((C1_start_status_outcomes 0
        ⟨.ok 45001, some "/bin/opencode", some "/data", .ok (), false⟩).2.2.2.1
      ⟨rfl, rfl, rfl, rfl, rfl⟩).1,
   ((C1_start_status_outcomes 0
        ⟨.error "无法绑定端口: in use", some "/bin/opencode", some "/data", .ok (), true⟩).2.2.1
      (Or.inl rfl)).2.1⟩

theorem addPlugin_frame (mentries pentries : List (String × Json)) (pe : Bool)
    (url : String)
    (h : addPluginIfMissing (.obj mentries) pe url = some (.obj pentries)) :
    (∀ k, k ≠ "plugin" → jlookup pentries k = jlookup mentries k) ∧
    (∀ v, jlookup mentries "plugin" = some v → jlookup pentries "plugin" = some v) := by
  cases hpl : jlookup mentries "plugin" with
  | some v0 =>
    simp [addPluginIfMissing, hpl] at h
    subst h
    exact ⟨fun k _ => rfl, fun v hv => hpl.trans hv⟩
  | none =>
    cases pe with
    | false =>
      simp [addPluginIfMissing, hpl] at h
      subst h
      exact ⟨fun k _ => rfl, fun v hv => Option.noConfusion hv⟩
    | true =>
      simp [addPluginIfMissing, hpl] at h
      subst h
      constructor
      · intro k hk
        rw [jlookup_jinsert]
        simp [hk]
      · intro v hv
        exact Option.noConfusion hv

theorem patchServer_frame (entries : List (String × Json)) (port : ℕ) :
    ∃ mentries, patchServerPort (.obj entries) port = some (.obj mentries) ∧
      (∀ k, k ≠ "server" → jlookup mentries k = jlookup entries k) ∧
      (∀ se, jlookup entries "server" = some (.obj se) →
        ∃ sp, jlookup mentries "server" = some (.obj sp) ∧
          jlookup sp "port" = some (.num port) ∧
          (∀ k, k ≠ "port" → jlookup sp k = jlookup se k)) := by
  cases hs : jlookup entries "server" with
  | none =>
    refine ⟨jinsert entries "server" (serverObjFor port), ?_, ?_, ?_⟩
    · simp [patchServerPort, hs]
    · intro k hk
      rw [jlookup_jinsert]
      simp [hk]
    · intro se hse
      cases hse
  | some sv =>
    cases sv
    case obj se =>
      refine ⟨jinsert entries "server" (.obj (jinsert se "port" (.num port))), ?_, ?_, ?_⟩
      · simp [patchServerPort, hs]
      · intro k hk
        rw [jlookup_jinsert]
        simp [hk]
      · intro se2 hse2
        simp only [Option.some.injEq, Json.obj.injEq] at hse2
        subst hse2
        refine ⟨jinsert se "port" (.num port), ?_, ?_, ?_⟩
        · rw [jlookup_jinsert]
          simp
        · rw [jlookup_jinsert]
          simp
        · intro k hk
          rw [jlookup_jinsert]
          simp [hk]
    all_goals
      exact ⟨entries, by simp [patchServerPort, hs], fun k _ => rfl,
        fun se2 hse2 => by simp at hse2⟩

/-- C7 counterexample: patching an existing config that has a `server` block
but no `plugin` entry, while the bridge plugin is installed on disk, does
not only modify the port: a new `plugin` field is injected, so a field other
than the server port differs after the patch (absent before, present
after). -/
theorem C7_counterexample :
    update_config_port (.obj [("server", .obj [("port", .num 1)])]) true
        "file:///plugins/index.js" 7 =
      some (.obj [("server", .obj [("port", .num 7)]),
                  ("plugin", .arr [.str "file:///plugins/index.js"])]) ∧
    jlookup [("server", Json.obj [("port", Json.num 1)])] "plugin" = none :=
  ⟨rfl, rfl⟩

/-- C7 amended: the in-place patch overwrites only the server port among
pre-existing fields — every pre-existing top-level field other than `server`
and `plugin` keeps its value, a pre-existing `plugin` field is preserved
as-is, and inside a pre-existing `server` object every field other than
`port` keeps its value while `port` is set — but the patch may additionally
insert a `plugin` entry when absent and the bridge plugin is installed, and
a fresh `{port, hostname}` server block when `server` is absent. -/
theorem C7_patch_preserves_other_fields (entries : List (String × Json))
    (pluginExists : Bool) (pluginUrl : String) (port : ℕ)
    (patched : List (String × Json))
    (hp : update_config_port (.obj entries) pluginExists pluginUrl port =
      some (.obj patched)) :
    (∀ k, k ≠ "server" → k ≠ "plugin" → jlookup patched k = jlookup entries k) ∧
    (∀ v, jlookup entries "plugin" = some v → jlookup patched "plugin" = some v) ∧
    (∀ se, jlookup entries "server" = some (.obj se) →
      ∃ sp, jlookup patched "server" = some (.obj sp) ∧
        jlookup sp "port" = some (.num port) ∧
        (∀ k, k ≠ "port" → jlookup sp k = jlookup se k)) := by
  obtain ⟨mentries, hmid, hframe1, hserver⟩ := patchServer_frame entries port
  have hp2 : addPluginIfMissing (.obj mentries) pluginExists pluginUrl =
      some (.obj patched) := by
    simp only [update_config_port, hmid, Option.bind_eq_bind, Option.some_bind] at hp
    exact hp
  obtain ⟨hplFrame, hplKeep⟩ :=
    addPlugin_frame mentries patched pluginExists pluginUrl hp2
  refine ⟨?_, ?_, ?_⟩
  · intro k hks hkp
    rw [hplFrame k hkp, hframe1 k hks]
  · intro v hv
    refine hplKeep v ?_
    rw [hframe1 "plugin" (by decide)]
    exact hv
  · intro se hse
    obtain ⟨sp, hsp1, hsp2, hsp3⟩ := hserver se hse
    refine ⟨sp, ?_, hsp2, hsp3⟩
    rw [hplFrame "server" (by decide), hsp1]

/-- C7 witness: a pre-existing `theme` field survives the patch of a config
with no `server` block and no plugin installed. -/
theorem C7_witness :
    jlookup [("theme", Json.str "dark"), ("server", serverObjFor 9)] "theme" =
      jlookup [("theme", Json.str "dark")] "theme" :=
  (C7_patch_preserves_other_fields [("theme", .str "dark")] false "u" 9
      [("theme", .str "dark"), ("server", serverObjFor 9)] rfl).1 "theme"
    (by decide) (by decide)

end Axon
